import Mathlib

/-!
# chat.go: message validation and the websocket handler

A shallow embedding of `chat.go` of the websocket chat demo.

* `validateMessage` is translated statement by statement.  `json.Unmarshal`
  belongs to the Go standard library, so the decoder is a parameter of the
  embedding (`Unmarshal`): it receives the bytes and the zero-valued message
  and gives back the message as the decoder left it together with its error.
* `handleWebsocket` is embedded as a function from what the outside world
  hands to the handler (the request method, the result of the upgrade with
  what the library wrote on the response writer, the clock reading, the
  successive results of `ws.NextReader()`) to the trace of calls the handler
  makes, in program order.  `defer` is modelled by an explicit stack that is
  run when the function is left.
* Durations are `time.Duration` values: integer nanoseconds (`Int`), with the
  `int64` range stated explicitly where it matters.
-/

namespace Chat

/-! ## Constants -/

/-- Go `time.Second`, in nanoseconds. -/
def Second : Int := 1000000000

/-- Time allowed to write a message to the peer. -/
def writeWait : Int := 10 * Second

/-- Time allowed to read the next pong message from the peer. -/
def pongWait : Int := 60 * Second

/-- Send pings to peer with this period. Must be less than pongWait.
The Go operator `/` on integers truncates toward zero, which is `Int.tdiv`. -/
def pingPeriod : Int := Int.tdiv (pongWait * 9) 10

/-- Maximum message size allowed from peer. -/
def maxMessageSize : Int := 512

/-- Largest value of a Go `int64`, the representation of `time.Duration`. -/
def maxInt64 : Int := 2 ^ 63 - 1

/-- Message type `websocket.TextMessage`. -/
def TextMessage : Int := 1

/-- Message type `websocket.CloseMessage`. -/
def CloseMessage : Int := 8

/-- Message type `websocket.PingMessage`. -/
def PingMessage : Int := 9

/-- The message type `NextReader` returns together with an error (`noFrame`). -/
def noFrame : Int := -1

/-- Close code `websocket.CloseNormalClosure`. -/
def CloseNormalClosure : Int := 1000

/-- Close code `websocket.CloseGoingAway`. -/
def CloseGoingAway : Int := 1001

/-- Close code `websocket.CloseAbnormalClosure`. -/
def CloseAbnormalClosure : Int := 1006

/-- Status `http.StatusBadRequest`. -/
def StatusBadRequest : Nat := 400

/-- Status `http.StatusForbidden`. -/
def StatusForbidden : Nat := 403

/-- Status `http.StatusMethodNotAllowed`. -/
def StatusMethodNotAllowed : Nat := 405

/-! ## Messages and validation -/

/-- A byte slice. -/
abbrev Bytes := List UInt8

/-- The bytes of an ASCII string. -/
def bytes (s : String) : Bytes := s.toList.map (fun c => UInt8.ofNat c.toNat)

/-- The message sent to us by the javascript client. -/
structure message where
  Handle : String
  Text : String
deriving DecidableEq, Repr

/-- The zero value of `message` (`var msg message`). -/
def message.zero : message := ⟨"", ""⟩

/-- The errors `validateMessage` builds with `github.com/pkg/errors`. -/
inductive Err where
  /-- The value of `errors.Wrap(cause, msg)`, `cause` given by its text. -/
  | wrap (cause : String) (msg : String)
  /-- The value of `errors.New(msg)`. -/
  | new (msg : String)
deriving DecidableEq, Repr

/-- The text of an error: `errors.Wrap` prefixes the cause with `msg: `. -/
def Err.Error : Err → String
  | .wrap cause msg => msg ++ ": " ++ cause
  | .new msg => msg

/-- The decoder `json.Unmarshal(data, &msg)`: from the bytes and the message
before the call to the message after the call and the returned error (its
text), `none` for `nil`. -/
abbrev Unmarshal := Bytes → message → message × Option String

/-- The function `validateMessage` of chat.go: the returned message and the
returned error (`none` for `nil`). -/
def validateMessage (unmarshal : Unmarshal) (data : Bytes) : message × Option Err :=
  let msg := message.zero
  match unmarshal data msg with
  | (msg, some err) => (msg, some (Err.wrap err "Unmarshaling message"))
  | (msg, none) =>
    if msg.Handle = "" ∧ msg.Text = "" then
      (msg, some (Err.new "Message has no Handle or Text"))
    else
      (msg, none)

/-- A finite table of what `encoding/json` does on the inputs used as
concrete examples below, for the target type `message`.  Inputs outside the
table are answered with an end-of-input error, which is what the library
does for the empty input only; the table is used at its listed rows. -/
def sampleUnmarshal : Unmarshal := fun data msg =>
  if data = bytes "\x7b\"handle\":\"alice\",\"text\":\"hi\"\x7d" then
    (⟨"alice", "hi"⟩, none)
  else if data = bytes "\x7b\"handle\":\"\",\"text\":\"\"\x7d" then
    (⟨"", ""⟩, none)
  else if data = bytes "\x7b\x7d" then
    (msg, none)
  else if data = bytes "\x7b\"handle\":\"bob\",\"text\":\"yo\",\"color\":\"red\"\x7d" then
    (⟨"bob", "yo"⟩, none)
  else if data = bytes "\x7b\"handle\":5,\"text\":\"hi\"\x7d" then
    (⟨msg.Handle, "hi"⟩,
      some "json: cannot unmarshal number into Go struct field message.handle of type string")
  else
    (msg, some "unexpected end of JSON input")

/-! ## The connection handler -/

/-- A websocket connection (`*websocket.Conn`), by identity. -/
abbrev Conn := Nat

/-- The errors `ws.NextReader()` can return. -/
inductive ReadErr where
  /-- A `*websocket.CloseError` with its close code. -/
  | closeError (code : Int)
  /-- The sentinel `io.EOF`. -/
  | eof
  /-- A network timeout: the read deadline expired. -/
  | timeout
  /-- Any other error, by its text. -/
  | other (text : String)
deriving DecidableEq, Repr

/-- The library function `websocket.IsUnexpectedCloseError`: true when the
error is a close error whose code is not one of the expected codes. -/
def IsUnexpectedCloseError (err : ReadErr) (expectedCodes : List Int) : Bool :=
  match err with
  | .closeError code => !expectedCodes.contains code
  | _ => false

/-- What `ioutil.ReadAll(reader)` gives for a reader: the bytes read and the
error (its text), `none` for `nil`. -/
structure Reader where
  data : Bytes
  err : Option String
deriving DecidableEq, Repr

/-- One result of `ws.NextReader()`: the message type, the reader (`none` for
`nil`) and the error (`none` for `nil`). -/
structure ReadResult where
  mt : Int
  reader : Option Reader
  err : Option ReadErr
deriving DecidableEq, Repr

/-- Log levels of the logger used by the handler. -/
inductive Level where
  | info
  | warning
  | error
deriving DecidableEq, Repr

/-- A failed `upgrader.Upgrade(w, r, nil)`: the returned error (its text) and
what the call did to `w` before returning.  The upgrader of chat.go has no
`Error` hook, so a failure met before the connection is taken over is answered
by the library itself with `http.Error(w, ..., code)`: `replied` is
`some code`.  A failure met after the connection was taken over (hijacked)
writes nothing on `w`, and nothing can be written on `w` any more: `replied`
is `none`. -/
structure UpgradeFailure where
  err : String
  replied : Option Nat
deriving DecidableEq, Repr

/-- The closures given to `ws.SetPongHandler`, by the duration they capture:
the closure calls `ws.SetReadDeadline(time.Now().Add(wait))` and returns
`nil`. -/
structure PongHandler where
  wait : Int
deriving DecidableEq, Repr

/-- The calls the handler makes on its collaborators, one constructor for each
kind of call. -/
inductive Action where
  /-- The call `http.Error(w, msg, code)`. -/
  | httpError (msg : String) (code : Nat)
  /-- The call `upgrader.Upgrade(w, r, nil)`, with what it did to `w`:
  `some code` when the library answered the request itself with an error
  response of that status, `none` when it took the connection over, after
  which `w` is out of use (always so when the upgrade succeeds). -/
  | upgrade (replied : Option Nat)
  /-- A log entry at the given level, by the fixed text of its message (the
  fields attached to the entry and the text of a wrapped cause are left out). -/
  | log (level : Level) (msg : String)
  /-- The call `rr.register(ws)`. -/
  | register (ws : Conn)
  /-- The call `rr.deRegister(ws)`. -/
  | deRegister (ws : Conn)
  /-- The call `ws.WriteMessage(mt, data)`. -/
  | writeMessage (mt : Int) (data : Bytes)
  /-- The call `ws.Close()`. -/
  | close
  /-- The call `ws.SetReadLimit(n)`. -/
  | setReadLimit (n : Int)
  /-- The call `ws.SetReadDeadline(t)`, `t` in nanoseconds. -/
  | setReadDeadline (t : Int)
  /-- The call `ws.SetPongHandler(h)`. -/
  | setPongHandler (h : PongHandler)
  /-- The call `ws.NextReader()`. -/
  | nextReader
  /-- The call `rw.publish(data)`. -/
  | publish (data : Bytes)
  /-- The start of a periodic task that writes ping frames every `period`
  nanoseconds.  No statement of chat.go produces it; it is in the alphabet so
  that a handler which starts a heartbeat sender can be told apart from one
  which does not. -/
  | startPinger (period : Int)
deriving DecidableEq, Repr

/-- A call of an installed pong handler at clock reading `now`: it re-arms
the read deadline and returns `nil`. -/
def PongHandler.run (h : PongHandler) (now : Int) (_appData : String) :
    List Action × Option String :=
  ([Action.setReadDeadline (now + h.wait)], none)

/-- How one pass through the body of the `for` loop ends. -/
inductive Flow where
  /-- The next iteration starts. -/
  | next
  /-- The `break` of the loop. -/
  | brk
  /-- A run-time panic. -/
  | panic
deriving DecidableEq, Repr

/-- The `switch mt` statement of the loop body.  A `break` inside a case
leaves the `switch`, not the loop.  Reading from a `nil` reader panics. -/
def dispatch (unmarshal : Unmarshal) (r : ReadResult) : List Action × Flow :=
  if r.mt = TextMessage then
    match r.reader with
    | none => ([], Flow.panic)
    | some reader =>
      match reader.err with
      | some _ => ([Action.log Level.error "Error reading message"], Flow.next)
      | none =>
        match validateMessage unmarshal reader.data with
        | (_, some _) => ([Action.log Level.error "Invalid Message"], Flow.next)
        | (_, none) => ([Action.publish reader.data], Flow.next)
  else if r.mt = PingMessage then
    ([Action.log Level.info "Ping received"], Flow.next)
  else
    ([Action.log Level.warning "Unknown Message!"], Flow.next)

/-- The body of the `for` loop after `ws.NextReader()` has returned `r`. -/
def loopBody (unmarshal : Unmarshal) (r : ReadResult) : List Action × Flow :=
  match r.err with
  | some err =>
    if IsUnexpectedCloseError err [CloseGoingAway, CloseAbnormalClosure] || err == ReadErr.eof then
      ([Action.log Level.info "Websocket closed!"], Flow.brk)
    else
      let rest := dispatch unmarshal r
      (Action.log Level.error "Error reading websocket message" :: rest.1, rest.2)
  | none => dispatch unmarshal r

/-- Where a run of the handler stands. -/
inductive Status where
  /-- Blocked in `ws.NextReader()`: the results given so far are used up. -/
  | reading
  /-- The function has returned. -/
  | returned
  /-- The function was left by a panic. -/
  | panicked
deriving DecidableEq, Repr

/-- A run: the calls made so far, in order, and where the handler stands. -/
structure Run where
  trace : List Action
  status : Status
deriving DecidableEq, Repr

/-- The `for` loop, fed with the successive results of `ws.NextReader()`. -/
def readLoop (unmarshal : Unmarshal) : List ReadResult → Run
  | [] => ⟨[Action.nextReader], Status.reading⟩
  | r :: rs =>
    match loopBody unmarshal r with
    | (acts, Flow.next) =>
      let rest := readLoop unmarshal rs
      ⟨Action.nextReader :: (acts ++ rest.trace), rest.status⟩
    | (acts, Flow.brk) => ⟨Action.nextReader :: acts, Status.returned⟩
    | (acts, Flow.panic) => ⟨Action.nextReader :: acts, Status.panicked⟩

/-- The state of the frame of the handler: the calls made so far and the stack
of deferred calls, the most recently deferred first. -/
structure Frame where
  trace : List Action
  defers : List Action
deriving DecidableEq, Repr

/-- Make a call now. -/
def Frame.call (f : Frame) (a : Action) : Frame := ⟨f.trace ++ [a], f.defers⟩

/-- The statement `defer a`: push the call on the stack. -/
def Frame.defer (f : Frame) (a : Action) : Frame := ⟨f.trace, a :: f.defers⟩

/-- Leave the function: the deferred calls run, last deferred first. -/
def Frame.leave (f : Frame) : List Action := f.trace ++ f.defers

/-- The function `handleWebsocket` of chat.go.  `method` is `r.Method`,
`upgraded` the result of `upgrader.Upgrade`, `now` the reading of
`time.Now()` when the read deadline is armed, `script` the successive
results of `ws.NextReader()`. -/
def handleWebsocket (unmarshal : Unmarshal) (method : String)
    (upgraded : Except UpgradeFailure Conn) (now : Int) (script : List ReadResult) : Run :=
  if method ≠ "GET" then
    ⟨[Action.httpError "Method not allowed" StatusMethodNotAllowed], Status.returned⟩
  else
    let f : Frame := ⟨[], []⟩
    match upgraded with
    | .error failure =>
      let f := f.call (Action.upgrade failure.replied)
      let m := "Unable to upgrade to websockets"
      let f := f.call (Action.log Level.info m)
      let f := f.call (Action.httpError m StatusBadRequest)
      ⟨f.leave, Status.returned⟩
    | .ok ws =>
      let f := f.call (Action.upgrade none)
      let f := f.call (Action.register ws)
      let f := f.defer (Action.deRegister ws)
      let f := f.defer (Action.writeMessage CloseMessage [])
      let f := f.defer Action.close
      let f := f.call (Action.setReadLimit maxMessageSize)
      let f := f.call (Action.setReadDeadline (now + pongWait))
      let f := f.call (Action.setPongHandler ⟨pongWait⟩)
      let loop := readLoop unmarshal script
      let f : Frame := ⟨f.trace ++ loop.trace, f.defers⟩
      match loop.status with
      | Status.reading => ⟨f.trace, Status.reading⟩
      | Status.returned => ⟨f.leave, Status.returned⟩
      | Status.panicked => ⟨f.leave, Status.panicked⟩

/-- The status of the HTTP response that goes out through `w` in a run, `none`
when none does.  As in `net/http`, the first status written is the status of
the response and a later `WriteHeader` is superfluous; once `Upgrade` has
taken the connection over, nothing written on `w` reaches the client. -/
def responseStatus : List Action → Option Nat
  | [] => none
  | Action.httpError _ code :: _ => some code
  | Action.upgrade (some code) :: _ => some code
  | Action.upgrade none :: _ => none
  | _ :: rest => responseStatus rest

/-- The payloads handed to `rw.publish`, in order. -/
def published : List Action → List Bytes
  | [] => []
  | Action.publish data :: rest => data :: published rest
  | _ :: rest => published rest

/-- Whether a call starts or drives a heartbeat: the start of a pinger task or
the write of a ping frame. -/
def isHeartbeat : Action → Bool
  | Action.startPinger _ => true
  | Action.writeMessage mt _ => mt == PingMessage
  | _ => false

/-- Whether a call is one of the three cleanup calls or leaves the connection. -/
def isTeardown : Action → Bool
  | Action.deRegister _ => true
  | Action.writeMessage mt _ => mt == CloseMessage
  | Action.close => true
  | _ => false

/-! ## Sample inputs -/

/-- The payload of end-to-end scenario 1. -/
def alicePayload : Bytes := bytes "\x7b\"handle\":\"alice\",\"text\":\"hi\"\x7d"

/-- The payload of end-to-end scenario 2: both fields empty. -/
def emptyPayload : Bytes := bytes "\x7b\"handle\":\"\",\"text\":\"\"\x7d"

/-- A payload with a field the message type does not have. -/
def colorPayload : Bytes :=
  bytes "\x7b\"handle\":\"bob\",\"text\":\"yo\",\"color\":\"red\"\x7d"

/-- A payload whose handle is a number: the decoder reports a type error and
still fills in the text. -/
def numberPayload : Bytes := bytes "\x7b\"handle\":5,\"text\":\"hi\"\x7d"

/-- A text frame carrying the given payload, read without error. -/
def textFrame (data : Bytes) : ReadResult := ⟨TextMessage, some ⟨data, none⟩, none⟩

/-- The upgrade failure of a handshake whose `Origin` header names another
host than the request: the default origin check refuses it and the library
answers with status 403. -/
def originRefused : UpgradeFailure :=
  ⟨"websocket: request origin not allowed by Upgrader.CheckOrigin", some StatusForbidden⟩

/-- What `ws.NextReader()` returns on a read error. -/
def readError (e : ReadErr) : ReadResult := ⟨noFrame, none, some e⟩

/-- The calls of the passes through the loop body for the given results, each
pass preceded by its `ws.NextReader()`. -/
def passes (unmarshal : Unmarshal) : List ReadResult → List Action
  | [] => []
  | r :: rs => Action.nextReader :: ((loopBody unmarshal r).1 ++ passes unmarshal rs)

/-! ## Lemmas on the loop -/

theorem readLoop_cons_next (unmarshal : Unmarshal) (r : ReadResult) (rs : List ReadResult)
    (acts : List Action) (h : loopBody unmarshal r = (acts, Flow.next)) :
    readLoop unmarshal (r :: rs) =
      ⟨Action.nextReader :: (acts ++ (readLoop unmarshal rs).trace),
        (readLoop unmarshal rs).status⟩ := by
  simp [readLoop, h]

theorem readLoop_append (unmarshal : Unmarshal) (pre post : List ReadResult)
    (hpre : ∀ r ∈ pre, (loopBody unmarshal r).2 = Flow.next) :
    readLoop unmarshal (pre ++ post) =
      ⟨passes unmarshal pre ++ (readLoop unmarshal post).trace,
        (readLoop unmarshal post).status⟩ := by
  induction pre with
  | nil => simp [passes]
  | cons r rs ih =>
    have hr : loopBody unmarshal r = ((loopBody unmarshal r).1, Flow.next) := by
      have := hpre r (List.mem_cons_self r rs)
      rw [← this]
    have hrs : ∀ x ∈ rs, (loopBody unmarshal x).2 = Flow.next :=
      fun x hx => hpre x (List.mem_cons_of_mem r hx)
    rw [List.cons_append, readLoop_cons_next unmarshal r (rs ++ post) _ hr, ih hrs]
    simp [passes]

theorem dispatch_valid_text (unmarshal : Unmarshal) (r : ReadResult) (data : Bytes)
    (hmt : r.mt = TextMessage) (hrd : r.reader = some ⟨data, none⟩)
    (hval : (validateMessage unmarshal data).2 = none) :
    dispatch unmarshal r = ([Action.publish data], Flow.next) := by
  unfold dispatch
  rw [if_pos hmt, hrd]
  simp only
  cases hv : validateMessage unmarshal data with
  | mk m e =>
    rw [hv] at hval
    simp only at hval
    subst hval
    rfl

theorem dispatch_invalid_text (unmarshal : Unmarshal) (r : ReadResult) (data : Bytes)
    (e : Err) (hmt : r.mt = TextMessage) (hrd : r.reader = some ⟨data, none⟩)
    (hval : (validateMessage unmarshal data).2 = some e) :
    dispatch unmarshal r = ([Action.log Level.error "Invalid Message"], Flow.next) := by
  unfold dispatch
  rw [if_pos hmt, hrd]
  simp only
  cases hv : validateMessage unmarshal data with
  | mk m e2 =>
    rw [hv] at hval
    simp only at hval
    subst hval
    rfl

theorem dispatch_no_heartbeat (unmarshal : Unmarshal) (r : ReadResult) :
    ∀ a ∈ (dispatch unmarshal r).1, isHeartbeat a = false := by
  unfold dispatch
  split
  · split
    · simp
    · split
      · simp [isHeartbeat]
      · split <;> simp [isHeartbeat]
  · split <;> simp [isHeartbeat]

theorem loopBody_no_heartbeat (unmarshal : Unmarshal) (r : ReadResult) :
    ∀ a ∈ (loopBody unmarshal r).1, isHeartbeat a = false := by
  unfold loopBody
  split
  · split
    · simp [isHeartbeat]
    · intro a ha
      simp only [List.mem_cons] at ha
      rcases ha with rfl | ha
      · rfl
      · exact dispatch_no_heartbeat unmarshal r a ha
  · exact dispatch_no_heartbeat unmarshal r

theorem readLoop_no_heartbeat (unmarshal : Unmarshal) (script : List ReadResult) :
    ∀ a ∈ (readLoop unmarshal script).trace, isHeartbeat a = false := by
  induction script with
  | nil => simp [readLoop, isHeartbeat]
  | cons r rs ih =>
    have hb := loopBody_no_heartbeat unmarshal r
    unfold readLoop
    cases hl : loopBody unmarshal r with
    | mk acts flow =>
      rw [hl] at hb
      cases flow <;> simp only [List.mem_cons, List.mem_append] <;> intro a ha
      · rcases ha with rfl | ha | ha
        · rfl
        · exact hb a ha
        · exact ih a ha
      · rcases ha with rfl | ha
        · rfl
        · exact hb a ha
      · rcases ha with rfl | ha
        · rfl
        · exact hb a ha

/-! ## Validation (C1, C2, C3) -/

/-- C1: when the decoder succeeds and leaves both the handle and the text
empty, `validateMessage` returns a non-nil error, namely the error made by
`errors.New` with the text "Message has no Handle or Text", which is not an
error wrapped around a decode error. -/
theorem validateMessage_empty_fields (unmarshal : Unmarshal) (data : Bytes) (msg : message)
    (hdec : unmarshal data message.zero = (msg, none))
    (hHandle : msg.Handle = "") (hText : msg.Text = "") :
    (validateMessage unmarshal data).2 = some (Err.new "Message has no Handle or Text") ∧
    (validateMessage unmarshal data).2 ≠ none ∧
    (∀ e, (validateMessage unmarshal data).2 = some e →
      e.Error = "Message has no Handle or Text") ∧
    (∀ cause text, (validateMessage unmarshal data).2 ≠ some (Err.wrap cause text)) := by
  have h : (validateMessage unmarshal data).2 =
      some (Err.new "Message has no Handle or Text") := by
    simp [validateMessage, hdec, hHandle, hText]
  refine ⟨h, ?_, ?_, ?_⟩
  · rw [h]; simp
  · intro e he
    rw [h] at he
    cases he
    rfl
  · intro cause text
    rw [h]
    simp

/-- Witness of C1: the payload with both fields empty. -/
theorem validateMessage_empty_fields_witness :
    (validateMessage sampleUnmarshal emptyPayload).2 =
      some (Err.new "Message has no Handle or Text") :=
  (validateMessage_empty_fields sampleUnmarshal emptyPayload ⟨"", ""⟩
    (by decide) (by decide) (by decide)).1

/-- C2: when the decoder succeeds and the handle or the text is not empty,
`validateMessage` returns the decoded message, field for field, with a nil
error. -/
theorem validateMessage_accepts (unmarshal : Unmarshal) (data : Bytes) (msg : message)
    (hdec : unmarshal data message.zero = (msg, none))
    (hne : msg.Handle ≠ "" ∨ msg.Text ≠ "") :
    validateMessage unmarshal data = (msg, none) ∧
    (validateMessage unmarshal data).1.Handle = msg.Handle ∧
    (validateMessage unmarshal data).1.Text = msg.Text := by
  have h : validateMessage unmarshal data = (msg, none) := by
    have hn : ¬ (msg.Handle = "" ∧ msg.Text = "") := by
      rintro ⟨h1, h2⟩
      rcases hne with h | h
      · exact h h1
      · exact h h2
    simp [validateMessage, hdec, hn]
  refine ⟨h, ?_, ?_⟩ <;> rw [h]

/-- Witness of C2: the payload of scenario 1. -/
theorem validateMessage_accepts_witness :
    validateMessage sampleUnmarshal alicePayload = (⟨"alice", "hi"⟩, none) :=
  (validateMessage_accepts sampleUnmarshal alicePayload ⟨"alice", "hi"⟩
    (by decide) (Or.inl (by decide))).1

/-- C3: when the decoder returns an error, `validateMessage` returns that
error wrapped with the text "Unmarshaling message"; the result is neither a
success nor the empty-message error, whatever the decoder left in the
message. -/
theorem validateMessage_decode_error (unmarshal : Unmarshal) (data : Bytes) (msg : message)
    (err : String) (hdec : unmarshal data message.zero = (msg, some err)) :
    validateMessage unmarshal data = (msg, some (Err.wrap err "Unmarshaling message")) ∧
    (validateMessage unmarshal data).2 ≠ none ∧
    (validateMessage unmarshal data).2 ≠ some (Err.new "Message has no Handle or Text") ∧
    (Err.wrap err "Unmarshaling message").Error = "Unmarshaling message: " ++ err := by
  have h : validateMessage unmarshal data =
      (msg, some (Err.wrap err "Unmarshaling message")) := by
    simp [validateMessage, hdec]
  refine ⟨h, ?_, ?_, rfl⟩ <;> rw [h] <;> simp

/-- Witness of C3: a payload whose handle is a number; the text is decoded,
the result is still the wrapped decode error. -/
theorem validateMessage_decode_error_witness :
    validateMessage sampleUnmarshal numberPayload =
      (⟨"", "hi"⟩, some (Err.wrap
        "json: cannot unmarshal number into Go struct field message.handle of type string"
        "Unmarshaling message")) :=
  (validateMessage_decode_error sampleUnmarshal numberPayload ⟨"", "hi"⟩
    "json: cannot unmarshal number into Go struct field message.handle of type string"
    (by decide)).1

/-! ## The read loop (C4, C5, C7) -/

/-- C4: a text frame read in full whose payload passes `validateMessage`
makes the loop body call `rw.publish` once, with the payload bytes as read,
and nothing else; in a run that reaches the frame, the calls between its
`ws.NextReader()` and the next one are that single publish. -/
theorem valid_text_frame_published (unmarshal : Unmarshal) (pre post : List ReadResult)
    (r : ReadResult) (data : Bytes)
    (hpre : ∀ f ∈ pre, (loopBody unmarshal f).2 = Flow.next)
    (hmt : r.mt = TextMessage) (herr : r.err = none)
    (hrd : r.reader = some ⟨data, none⟩)
    (hval : (validateMessage unmarshal data).2 = none) :
    loopBody unmarshal r = ([Action.publish data], Flow.next) ∧
    published (loopBody unmarshal r).1 = [data] ∧
    readLoop unmarshal (pre ++ r :: post) =
      ⟨passes unmarshal pre ++
          (Action.nextReader :: Action.publish data :: (readLoop unmarshal post).trace),
        (readLoop unmarshal post).status⟩ := by
  have hb : loopBody unmarshal r = ([Action.publish data], Flow.next) := by
    unfold loopBody
    rw [herr]
    exact dispatch_valid_text unmarshal r data hmt hrd hval
  refine ⟨hb, ?_, ?_⟩
  · rw [hb]; rfl
  · rw [readLoop_append unmarshal pre (r :: post) hpre,
      readLoop_cons_next unmarshal r post _ hb]
    rfl

/-- Witness of C4: after a rejected frame, a payload with an extra field is
published byte for byte. -/
theorem valid_text_frame_published_witness :
    readLoop sampleUnmarshal ([textFrame emptyPayload] ++ textFrame colorPayload :: []) =
      ⟨passes sampleUnmarshal [textFrame emptyPayload] ++
          (Action.nextReader :: Action.publish colorPayload ::
            (readLoop sampleUnmarshal []).trace),
        (readLoop sampleUnmarshal []).status⟩ :=
  (valid_text_frame_published sampleUnmarshal [textFrame emptyPayload] []
    (textFrame colorPayload) colorPayload (by decide) rfl rfl rfl (by decide)).2.2

/-- C5: a text frame whose payload fails `validateMessage` makes the loop body
log an error and nothing else: no publish, no cleanup call, and the loop goes
on; a later valid text frame on the same connection is published. -/
theorem invalid_text_frame_dropped (unmarshal : Unmarshal) (pre mid post : List ReadResult)
    (r g : ReadResult) (data good : Bytes) (e : Err)
    (hpre : ∀ f ∈ pre, (loopBody unmarshal f).2 = Flow.next)
    (hmid : ∀ f ∈ mid, (loopBody unmarshal f).2 = Flow.next)
    (hmt : r.mt = TextMessage) (herr : r.err = none)
    (hrd : r.reader = some ⟨data, none⟩)
    (hval : (validateMessage unmarshal data).2 = some e)
    (gmt : g.mt = TextMessage) (gerr : g.err = none)
    (grd : g.reader = some ⟨good, none⟩)
    (gval : (validateMessage unmarshal good).2 = none) :
    loopBody unmarshal r = ([Action.log Level.error "Invalid Message"], Flow.next) ∧
    published (loopBody unmarshal r).1 = [] ∧
    (∀ a ∈ (loopBody unmarshal r).1, isTeardown a = false) ∧
    readLoop unmarshal (pre ++ r :: (mid ++ g :: post)) =
      ⟨passes unmarshal pre ++
          (Action.nextReader :: Action.log Level.error "Invalid Message" ::
            (passes unmarshal mid ++
              (Action.nextReader :: Action.publish good ::
                (readLoop unmarshal post).trace))),
        (readLoop unmarshal post).status⟩ := by
  have hb : loopBody unmarshal r =
      ([Action.log Level.error "Invalid Message"], Flow.next) := by
    unfold loopBody
    rw [herr]
    exact dispatch_invalid_text unmarshal r data e hmt hrd hval
  have hg : loopBody unmarshal g = ([Action.publish good], Flow.next) := by
    unfold loopBody
    rw [gerr]
    exact dispatch_valid_text unmarshal g good gmt grd gval
  refine ⟨hb, ?_, ?_, ?_⟩
  · rw [hb]; rfl
  · rw [hb]
    intro a ha
    simp only [List.mem_singleton] at ha
    subst ha
    rfl
  · rw [readLoop_append unmarshal pre _ hpre,
      readLoop_cons_next unmarshal r _ _ hb,
      readLoop_append unmarshal mid _ hmid,
      readLoop_cons_next unmarshal g post _ hg]
    rfl

/-- Witness of C5: scenario 2 followed, after a malformed payload, by
scenario 1. -/
theorem invalid_text_frame_dropped_witness :
    readLoop sampleUnmarshal
        ([] ++ textFrame emptyPayload ::
          ([textFrame numberPayload] ++ textFrame alicePayload :: [])) =
      ⟨passes sampleUnmarshal [] ++
          (Action.nextReader :: Action.log Level.error "Invalid Message" ::
            (passes sampleUnmarshal [textFrame numberPayload] ++
              (Action.nextReader :: Action.publish alicePayload ::
                (readLoop sampleUnmarshal []).trace))),
        (readLoop sampleUnmarshal []).status⟩ :=
  (invalid_text_frame_dropped sampleUnmarshal [] [textFrame numberPayload] []
    (textFrame emptyPayload) (textFrame alicePayload) emptyPayload alicePayload
    (Err.new "Message has no Handle or Text")
    (by decide) (by decide) rfl rfl rfl (by decide) rfl rfl rfl (by decide)).2.2.2

/-- C7: as written the loop does not stop on every read error.  For a close
error with the going-away or the abnormal-closure code, and for an expired
read deadline, the loop body logs the error, falls into the default case of
the switch and starts the next iteration; when the connection keeps returning
such an error, the handler is still reading after any number of failed reads
and no cleanup call is made.  (The results are those `ws.NextReader()`
returns; that the library panics by itself after many reads of a failed
connection is outside chat.go.) -/
theorem read_error_does_not_break (unmarshal : Unmarshal) (ws : Conn) (now : Int) (n : Nat) :
    loopBody unmarshal (readError (ReadErr.closeError CloseGoingAway)) =
      ([Action.log Level.error "Error reading websocket message",
        Action.log Level.warning "Unknown Message!"], Flow.next) ∧
    loopBody unmarshal (readError (ReadErr.closeError CloseAbnormalClosure)) =
      ([Action.log Level.error "Error reading websocket message",
        Action.log Level.warning "Unknown Message!"], Flow.next) ∧
    loopBody unmarshal (readError ReadErr.timeout) =
      ([Action.log Level.error "Error reading websocket message",
        Action.log Level.warning "Unknown Message!"], Flow.next) ∧
    (handleWebsocket unmarshal "GET" (Except.ok ws) now
      (List.replicate n (readError ReadErr.timeout))).status = Status.reading ∧
    (∀ a ∈ (handleWebsocket unmarshal "GET" (Except.ok ws) now
      (List.replicate n (readError ReadErr.timeout))).trace, isTeardown a = false) := by
  have hb : loopBody unmarshal (readError ReadErr.timeout) =
      ([Action.log Level.error "Error reading websocket message",
        Action.log Level.warning "Unknown Message!"], Flow.next) := rfl
  have hloop : ∀ k : Nat,
      (readLoop unmarshal (List.replicate k (readError ReadErr.timeout))).status =
        Status.reading ∧
      ∀ a ∈ (readLoop unmarshal (List.replicate k (readError ReadErr.timeout))).trace,
        isTeardown a = false := by
    intro k
    induction k with
    | zero => simp [readLoop, isTeardown]
    | succ k ih =>
      rw [List.replicate_succ, readLoop_cons_next unmarshal _ _ _ hb]
      refine ⟨ih.1, ?_⟩
      intro a ha
      simp only [List.mem_cons, List.mem_append, List.not_mem_nil, or_false] at ha
      rcases ha with rfl | (rfl | rfl) | ha
      · rfl
      · rfl
      · rfl
      · exact ih.2 a ha
  refine ⟨rfl, rfl, hb, ?_, ?_⟩
  · simp [handleWebsocket, (hloop n).1]
  · intro a ha
    simp only [handleWebsocket, (hloop n).1, Frame.call, Frame.defer] at ha
    simp only [ne_eq, not_true_eq_false, ↓reduceIte, List.nil_append, List.append_assoc,
      List.mem_append, List.mem_cons, List.not_mem_nil, or_false, false_or] at ha
    rcases ha with rfl | rfl | rfl | rfl | rfl | ha
    · rfl
    · rfl
    · rfl
    · rfl
    · rfl
    · exact (hloop n).2 a ha

/-! ## Entering and leaving the handler (C6, C8, C9) -/

/-- C6: the three cleanup calls are all made when the handler is left, but in
the order release, close frame, deregister: the deferred calls run in the
reverse of the order of their `defer` statements.  Shown on the run whose
first read returns a close error with the normal-closure code, on the run
whose first read returns `io.EOF`, and for every run that has left the
handler. -/
theorem cleanup_runs_in_reverse (unmarshal : Unmarshal) (ws : Conn) (now : Int)
    (script : List ReadResult) :
    handleWebsocket sampleUnmarshal "GET" (Except.ok 7) 0
        [readError (ReadErr.closeError CloseNormalClosure)] =
      ⟨[Action.upgrade none, Action.register 7, Action.setReadLimit 512,
        Action.setReadDeadline 60000000000, Action.setPongHandler ⟨60000000000⟩,
        Action.nextReader, Action.log Level.info "Websocket closed!",
        Action.close, Action.writeMessage CloseMessage [], Action.deRegister 7],
        Status.returned⟩ ∧
    handleWebsocket sampleUnmarshal "GET" (Except.ok 7) 0 [readError ReadErr.eof] =
      ⟨[Action.upgrade none, Action.register 7, Action.setReadLimit 512,
        Action.setReadDeadline 60000000000, Action.setPongHandler ⟨60000000000⟩,
        Action.nextReader, Action.log Level.info "Websocket closed!",
        Action.close, Action.writeMessage CloseMessage [], Action.deRegister 7],
        Status.returned⟩ ∧
    ((handleWebsocket unmarshal "GET" (Except.ok ws) now script).status = Status.reading ∨
      ∃ body, (handleWebsocket unmarshal "GET" (Except.ok ws) now script).trace =
        body ++ [Action.close, Action.writeMessage CloseMessage [], Action.deRegister ws]) := by
  refine ⟨by decide, by decide, ?_⟩
  cases hs : (readLoop unmarshal script).status with
  | reading =>
    left
    simp [handleWebsocket, hs]
  | returned =>
    right
    refine ⟨[Action.upgrade none, Action.register ws, Action.setReadLimit maxMessageSize,
      Action.setReadDeadline (now + pongWait), Action.setPongHandler ⟨pongWait⟩] ++
      (readLoop unmarshal script).trace, ?_⟩
    simp [handleWebsocket, hs, Frame.call, Frame.defer, Frame.leave]
  | panicked =>
    right
    refine ⟨[Action.upgrade none, Action.register ws, Action.setReadLimit maxMessageSize,
      Action.setReadDeadline (now + pongWait), Action.setPongHandler ⟨pongWait⟩] ++
      (readLoop unmarshal script).trace, ?_⟩
    simp [handleWebsocket, hs, Frame.call, Frame.defer, Frame.leave]

/-- C8: a request whose method is not GET is answered with status 405 and
nothing else happens.  For a GET request whose upgrade fails the handler makes
no registration, no cleanup call and no read, but its
`http.Error(w, m, 400)` comes after `Upgrade` has dealt with `w`: the status
of the response is the one the library wrote (403 when the origin is refused),
or there is no response at all, never one decided by the handler. -/
theorem failed_upgrade_status_is_not_the_handlers (unmarshal : Unmarshal)
    (failure : UpgradeFailure) (now : Int) (script : List ReadResult) :
    handleWebsocket sampleUnmarshal "GET" (Except.error originRefused) 0 [] =
      ⟨[Action.upgrade (some 403),
        Action.log Level.info "Unable to upgrade to websockets",
        Action.httpError "Unable to upgrade to websockets" 400], Status.returned⟩ ∧
    responseStatus
      (handleWebsocket sampleUnmarshal "GET" (Except.error originRefused) 0 []).trace =
        some 403 ∧
    responseStatus
      (handleWebsocket unmarshal "GET" (Except.error failure) now script).trace =
        failure.replied ∧
    responseStatus
      (handleWebsocket sampleUnmarshal "POST" (Except.ok 7) 0 [textFrame alicePayload]).trace =
        some 405 := by
  refine ⟨by decide, by decide, ?_, by decide⟩
  cases hr : failure.replied <;>
    simp [handleWebsocket, Frame.call, Frame.leave, responseStatus, hr]

/-- C9: the handler arms the read deadline and installs the pong handler, but
it never sends a ping: before the first read it makes the calls register,
set read limit, set read deadline, set pong handler and no other, and in no
run does any of its calls start a pinger or write a ping frame.  Shown on the
run of a silent client whose read deadline expires, and for every run. -/
theorem handler_sends_no_ping (unmarshal : Unmarshal) (ws : Conn) (now : Int)
    (script : List ReadResult) :
    handleWebsocket sampleUnmarshal "GET" (Except.ok 7) 0 [readError ReadErr.timeout] =
      ⟨[Action.upgrade none, Action.register 7, Action.setReadLimit 512,
        Action.setReadDeadline 60000000000, Action.setPongHandler ⟨60000000000⟩,
        Action.nextReader, Action.log Level.error "Error reading websocket message",
        Action.log Level.warning "Unknown Message!", Action.nextReader],
        Status.reading⟩ ∧
    (∃ rest, (handleWebsocket unmarshal "GET" (Except.ok ws) now script).trace =
      [Action.upgrade none, Action.register ws, Action.setReadLimit maxMessageSize,
        Action.setReadDeadline (now + pongWait), Action.setPongHandler ⟨pongWait⟩,
        Action.nextReader] ++ rest) ∧
    (∀ a ∈ (handleWebsocket unmarshal "GET" (Except.ok ws) now script).trace,
      isHeartbeat a = false) := by
  have hhead : ∃ tail, (readLoop unmarshal script).trace = Action.nextReader :: tail := by
    cases script with
    | nil => exact ⟨[], rfl⟩
    | cons r rs =>
      unfold readLoop
      cases hl : loopBody unmarshal r with
      | mk acts flow => cases flow <;> exact ⟨_, rfl⟩
  obtain ⟨tail, ht⟩ := hhead
  have hnh := readLoop_no_heartbeat unmarshal script
  refine ⟨by decide, ?_, ?_⟩
  · cases hs : (readLoop unmarshal script).status with
    | reading =>
      exact ⟨tail, by simp [handleWebsocket, hs, ht, Frame.call, Frame.defer]⟩
    | returned =>
      exact ⟨tail ++ [Action.close, Action.writeMessage CloseMessage [], Action.deRegister ws],
        by simp [handleWebsocket, hs, ht, Frame.call, Frame.defer, Frame.leave]⟩
    | panicked =>
      exact ⟨tail ++ [Action.close, Action.writeMessage CloseMessage [], Action.deRegister ws],
        by simp [handleWebsocket, hs, ht, Frame.call, Frame.defer, Frame.leave]⟩
  · intro a ha
    have hcases : a ∈ [Action.upgrade none, Action.register ws,
        Action.setReadLimit maxMessageSize, Action.setReadDeadline (now + pongWait),
        Action.setPongHandler ⟨pongWait⟩] ∨
        a ∈ (readLoop unmarshal script).trace ∨
        a ∈ [Action.close, Action.writeMessage CloseMessage [], Action.deRegister ws] := by
      cases hs : (readLoop unmarshal script).status <;>
        simp [handleWebsocket, hs, Frame.call, Frame.defer, Frame.leave] at ha <;>
        simp <;> tauto
    rcases hcases with h | h | h
    · simp only [List.mem_cons, List.not_mem_nil, or_false] at h
      rcases h with rfl | rfl | rfl | rfl | rfl <;> rfl
    · exact hnh a h
    · simp only [List.mem_cons, List.not_mem_nil, or_false] at h
      rcases h with rfl | rfl | rfl <;> rfl

/-! ## The heartbeat period (C10) -/

/-- C10: the ping period, (pongWait * 9) / 10, is 54 s: strictly positive and
strictly less than pongWait (60 s); the product pongWait * 9 stays within
`int64` and the division is exact. -/
theorem pingPeriod_lt_pongWait :
    0 < pingPeriod ∧ pingPeriod < pongWait ∧
    pingPeriod = 54 * Second ∧ pongWait = 60 * Second ∧
    pongWait * 9 ≤ maxInt64 ∧ pingPeriod * 10 = pongWait * 9 := by
  decide

/-! ## Further properties of the loop body -/

theorem dispatch_flow_ne_brk (unmarshal : Unmarshal) (r : ReadResult) :
    (dispatch unmarshal r).2 ≠ Flow.brk := by
  unfold dispatch
  split
  · split
    · simp
    · split
      · simp
      · split <;> simp
  · split <;> simp

/-- The loop is left by `break` exactly when `ws.NextReader()` returned
`io.EOF` or a close error whose code is neither going-away nor
abnormal-closure. -/
theorem loopBody_breaks_iff (unmarshal : Unmarshal) (r : ReadResult) :
    (loopBody unmarshal r).2 = Flow.brk ↔
      r.err = some ReadErr.eof ∨
      ∃ code, r.err = some (ReadErr.closeError code) ∧
        code ≠ CloseGoingAway ∧ code ≠ CloseAbnormalClosure := by
  have hd := dispatch_flow_ne_brk unmarshal r
  unfold loopBody
  cases he : r.err with
  | none => simp [hd]
  | some e =>
    cases e with
    | closeError code =>
      by_cases h1 : code = CloseGoingAway
      · simp [IsUnexpectedCloseError, h1, hd]
      · by_cases h2 : code = CloseAbnormalClosure
        · simp [IsUnexpectedCloseError, h2, hd]
        · simp [IsUnexpectedCloseError, h1, h2]
    | eof => simp [IsUnexpectedCloseError]
    | timeout => simp [IsUnexpectedCloseError, hd]
    | other text => simp [IsUnexpectedCloseError, hd]

/-- A frame read without error whose type is neither text nor ping is
answered with the warning "Unknown Message!" and the loop goes on. -/
theorem unknown_frame_warns (unmarshal : Unmarshal) (r : ReadResult)
    (herr : r.err = none) (htext : r.mt ≠ TextMessage) (hping : r.mt ≠ PingMessage) :
    loopBody unmarshal r = ([Action.log Level.warning "Unknown Message!"], Flow.next) := by
  simp [loopBody, herr, dispatch, htext, hping]

/-- A binary frame (message type 2) is an unknown frame. -/
theorem unknown_frame_warns_witness :
    loopBody sampleUnmarshal ⟨2, some ⟨alicePayload, none⟩, none⟩ =
      ([Action.log Level.warning "Unknown Message!"], Flow.next) :=
  unknown_frame_warns sampleUnmarshal ⟨2, some ⟨alicePayload, none⟩, none⟩
    rfl (by decide) (by decide)

/-- A text frame whose payload cannot be read in full is logged and dropped:
`validateMessage` is not consulted, nothing is published, the loop goes on. -/
theorem unreadable_text_frame_dropped (unmarshal : Unmarshal) (data : Bytes) (e : String) :
    loopBody unmarshal ⟨TextMessage, some ⟨data, some e⟩, none⟩ =
      ([Action.log Level.error "Error reading message"], Flow.next) := by
  rfl

/-- The calls on the two rejecting paths: a request whose method is not GET
gets the single call `http.Error(w, "Method not allowed", 405)`; a GET
request whose upgrade fails gets the upgrade attempt, a log entry and the call
`http.Error(w, m, 400)`; on neither path is there a registration, a cleanup
call or a read. -/
theorem rejecting_paths_calls (unmarshal : Unmarshal) (now : Int)
    (script : List ReadResult) :
    (∀ (method : String) (upgraded : Except UpgradeFailure Conn), method ≠ "GET" →
      handleWebsocket unmarshal method upgraded now script =
        ⟨[Action.httpError "Method not allowed" 405], Status.returned⟩) ∧
    (∀ failure : UpgradeFailure,
      handleWebsocket unmarshal "GET" (Except.error failure) now script =
        ⟨[Action.upgrade failure.replied,
          Action.log Level.info "Unable to upgrade to websockets",
          Action.httpError "Unable to upgrade to websockets" 400], Status.returned⟩) := by
  constructor
  · intro method upgraded hm
    simp [handleWebsocket, hm, StatusMethodNotAllowed]
  · intro failure
    simp [handleWebsocket, Frame.call, Frame.leave, StatusBadRequest]

/-- A POST request, even one whose upgrade would succeed and whose connection
has a frame ready, gets the 405 call only. -/
theorem rejecting_paths_calls_witness :
    handleWebsocket sampleUnmarshal "POST" (Except.ok 7) 0 [textFrame alicePayload] =
      ⟨[Action.httpError "Method not allowed" 405], Status.returned⟩ :=
  (rejecting_paths_calls sampleUnmarshal 0 [textFrame alicePayload]).1
    "POST" (Except.ok 7) (by decide)

end Chat
